import Mathlib

/-!
Verification of the websockify relay (src/websockify.py).

The program is a WebSocket-to-TCP byte relay built from two directional
pumps (forward_ws_to_tcp, forward_tcp_to_ws) and a session coordinator
(websockify).  We embed each coroutine as a total function from a trace of
environment events (results of its awaited I/O operations) to the trace of
I/O actions it performs, together with its outcome: whether the coroutine
body ran to completion, which resources it closed, and which exception, if
any, propagated out of it.
-/

namespace Websockify

/-- A byte string, modelled as a list of byte values. -/
abbrev Bytes := List Nat

/-- The Python exception classes that can reach the pump handlers.
WebSocketDisconnect and IncompleteReadError are caught by the first
except clause of forward_ws_to_tcp; any other Exception is caught by the
except-Exception clauses; CancelledError derives from BaseException and is
caught by neither. -/
inductive PyExn
  | wsDisconnect
  | incompleteRead
  | otherError
  | cancelled
deriving DecidableEq, Repr

/-! ## forward_ws_to_tcp -/

/-- One environment event consumed by an iteration of forward_ws_to_tcp:
the outcome of the awaited receive, and, when a non-empty payload is
received, the outcome of the subsequent write+drain. -/
inductive WsEvent
  /-- receive_bytes returns this payload; drainOk tells whether the
  write+drain of a non-empty payload succeeds or raises an Exception. -/
  | msg (data : Bytes) (drainOk : Bool)
  /-- receive_bytes raises WebSocketDisconnect. -/
  | disconnect
  /-- receive_bytes raises IncompleteReadError. -/
  | incompleteRead
  /-- receive_bytes raises some other Exception. -/
  | recvFault
  /-- CancelledError is delivered at the receive suspension point. -/
  | cancel
deriving DecidableEq, Repr

/-- An I/O action performed by forward_ws_to_tcp, in program order. -/
inductive WsAction
  /-- an awaited websocket.receive_bytes call returned or raised -/
  | recv
  /-- writer.write(data) -/
  | write (data : Bytes)
  /-- an awaited writer.drain() completed -/
  | drain
  /-- writer.close() was called in the finally block -/
  | closeWriter
deriving DecidableEq, Repr

/-- How the try-block of a pump loop ends. -/
inductive LoopExit
  /-- the loop executed break -/
  | brk
  /-- an exception was raised inside the try block -/
  | raised (e : PyExn)
  /-- the event trace was exhausted with the loop still awaiting I/O -/
  | blocked
deriving DecidableEq, Repr

/-- The while-True loop in the try block of forward_ws_to_tcp: await
receive_bytes; break on empty payload; otherwise writer.write(data) then
await writer.drain() before the next receive. -/
def wsTryLoop : List WsEvent → List WsAction × LoopExit
  | [] => ([], .blocked)
  | .disconnect :: _ => ([.recv], .raised .wsDisconnect)
  | .incompleteRead :: _ => ([.recv], .raised .incompleteRead)
  | .recvFault :: _ => ([.recv], .raised .otherError)
  | .cancel :: _ => ([.recv], .raised .cancelled)
  | .msg data drainOk :: rest =>
    if data = [] then ([.recv], .brk)
    else if drainOk then
      let r := wsTryLoop rest
      (.recv :: .write data :: .drain :: r.1, r.2)
    else ([.recv, .write data], .raised .otherError)

/-- The except clauses of forward_ws_to_tcp: except (WebSocketDisconnect,
IncompleteReadError) passes, except Exception logs and passes;
CancelledError matches neither clause and keeps propagating. -/
def wsHandle : PyExn → Option PyExn
  | .wsDisconnect => none
  | .incompleteRead => none
  | .otherError => none
  | .cancelled => some .cancelled

/-- The result of running forward_ws_to_tcp against an event trace. -/
structure WsRun where
  /-- the I/O actions performed, in order -/
  trace : List WsAction
  /-- true when the coroutine ran to its end (so the finally block ran);
  false when it is still blocked awaiting I/O -/
  terminated : Bool
  /-- whether writer.close() was invoked by the finally block -/
  closedWriter : Bool
  /-- the exception, if any, that propagated out of the coroutine -/
  escaped : Option PyExn
deriving DecidableEq, Repr

/-- Embedding of forward_ws_to_tcp: run the try loop, apply the except
clauses, then the finally block closes the writer when
writer.is_closing() is false. isClosing is writer.is_closing() as observed
by the finally block. -/
def forward_ws_to_tcp (events : List WsEvent) (isClosing : Bool) : WsRun :=
  let r := wsTryLoop events
  match r.2 with
  | .blocked => ⟨r.1, false, false, none⟩
  | .brk =>
    ⟨r.1 ++ (if isClosing then [] else [.closeWriter]), true, !isClosing, none⟩
  | .raised e =>
    ⟨r.1 ++ (if isClosing then [] else [.closeWriter]), true, !isClosing, wsHandle e⟩

/-- The payloads passed to writer.write, in order, of an action trace. -/
def writtenOf : List WsAction → List Bytes
  | [] => []
  | .write d :: rest => d :: writtenOf rest
  | _ :: rest => writtenOf rest

/-! ## forward_tcp_to_ws -/

/-- The fixed read size passed to reader.read by forward_tcp_to_ws. -/
def READ_SIZE : Nat := 4096

/-- One environment event consumed by an iteration of forward_tcp_to_ws. -/
inductive TcpEvent
  /-- reader.read(4096) returns this chunk; sendOk tells whether
  send_bytes of a non-empty chunk succeeds or raises an Exception -/
  | chunk (data : Bytes) (sendOk : Bool)
  /-- reader.read raises an Exception -/
  | readFault
  /-- CancelledError is delivered at the read suspension point -/
  | cancel
deriving DecidableEq, Repr

/-- An I/O action performed by forward_tcp_to_ws, in program order. -/
inductive TcpAction
  /-- an awaited reader.read(n) returned this chunk -/
  | read (n : Nat) (data : Bytes)
  /-- an awaited websocket.send_bytes(data) -/
  | send (data : Bytes)
  /-- websocket.close() was attempted in the finally block -/
  | closeWs
deriving DecidableEq, Repr

/-- The while-True loop in the try block of forward_tcp_to_ws: await
reader.read(4096); break on an empty chunk; otherwise await
websocket.send_bytes(data). -/
def tcpTryLoop : List TcpEvent → List TcpAction × LoopExit
  | [] => ([], .blocked)
  | .readFault :: _ => ([], .raised .otherError)
  | .cancel :: _ => ([], .raised .cancelled)
  | .chunk data sendOk :: rest =>
    if data = [] then ([.read READ_SIZE data], .brk)
    else if sendOk then
      let r := tcpTryLoop rest
      (.read READ_SIZE data :: .send data :: r.1, r.2)
    else ([.read READ_SIZE data], .raised .otherError)

/-- The except-Exception clause of forward_tcp_to_ws: every Exception is
logged and swallowed; CancelledError keeps propagating. -/
def tcpHandle : PyExn → Option PyExn
  | .cancelled => some .cancelled
  | _ => none

/-- The inner try/except around websocket.close() in the finally block of
forward_tcp_to_ws: whatever the close attempt does, no exception leaves
the block. closeRes is the outcome of the close attempt. -/
def closeSwallow : Except PyExn Unit → Option PyExn
  | .ok _ => none
  | .error _ => none

/-- The result of running forward_tcp_to_ws against an event trace. -/
structure TcpRun where
  /-- the I/O actions performed, in order -/
  trace : List TcpAction
  /-- true when the coroutine ran to its end (so the finally block ran) -/
  terminated : Bool
  /-- whether websocket.close() was attempted by the finally block -/
  closedWs : Bool
  /-- the exception, if any, that propagated out of the coroutine -/
  escaped : Option PyExn
deriving DecidableEq, Repr

/-- Embedding of forward_tcp_to_ws: run the try loop, apply the
except-Exception clause, then the finally block attempts
websocket.close(), swallowing any error of the attempt. closeRes is the
outcome of that close attempt. -/
def forward_tcp_to_ws (events : List TcpEvent) (closeRes : Except PyExn Unit) :
    TcpRun :=
  let r := tcpTryLoop events
  match r.2 with
  | .blocked => ⟨r.1, false, false, none⟩
  | .brk => ⟨r.1 ++ [.closeWs], true, true, closeSwallow closeRes⟩
  | .raised e =>
    ⟨r.1 ++ [.closeWs], true, true,
      match tcpHandle e with
      | some ex => some ex
      | none => closeSwallow closeRes⟩

/-- The payloads passed to websocket.send_bytes, in order, of an action
trace. -/
def sentOf : List TcpAction → List Bytes
  | [] => []
  | .send d :: rest => d :: sentOf rest
  | _ :: rest => sentOf rest

/-! ## websockify (session coordinator) -/

/-- Python str.split on a comma, character by character: every comma is a
separator, and splitting the empty string yields the singleton list of
the empty string. -/
def splitCommaAux : List Char → List Char → List String
  | [], acc => [String.mk acc.reverse]
  | c :: cs, acc =>
    if c = ',' then String.mk acc.reverse :: splitCommaAux cs []
    else splitCommaAux cs (c :: acc)

/-- Python str.split(",") applied to the header value. -/
def pySplitComma (s : String) : List String :=
  splitCommaAux s.data []

/-- The ASCII whitespace characters removed by Python str.strip():
space, tab, newline, carriage return, vertical tab and form feed. -/
def pyIsSpace (c : Char) : Bool :=
  c = ' ' || c = '\t' || c = '\n' || c = '\r' || c = '\x0b' || c = '\x0c'

/-- Python str.strip(): drop whitespace from both ends of the string. -/
def pyStrip (s : String) : String :=
  String.mk (((s.data.dropWhile pyIsSpace).reverse.dropWhile pyIsSpace).reverse)

/-- The for-loop over the comma-separated candidates of the
Sec-WebSocket-Protocol header: strip each candidate and select binary at
the first match, leaving the selection at none otherwise. -/
def selectLoop : List String → Option String
  | [] => none
  | p :: rest => if pyStrip p = "binary" then some "binary" else selectLoop rest

/-- Subprotocol negotiation of websockify: split the header value on
commas and scan for a candidate that strips to binary. -/
def select_subprotocol (header : String) : Option String :=
  selectLoop (pySplitComma header)

/-- The two pump directions. -/
inductive Dir
  | wsToTcp
  | tcpToWs
deriving DecidableEq, Repr

/-- The other direction. -/
def otherDir : Dir → Dir
  | .wsToTcp => .tcpToWs
  | .tcpToWs => .wsToTcp

/-- A control action performed by the coordinator, in program order. -/
inductive CoordAction
  /-- websocket.accept(subprotocol=sel) -/
  | accept (sel : Option String)
  /-- websocket.close(code=c) called by the coordinator itself -/
  | closeWs (code : Nat)
  /-- asyncio.create_task on the pump of this direction -/
  | startPump (d : Dir)
  /-- the awaited asyncio.wait with FIRST_COMPLETED returned -/
  | waitFirstCompleted
  /-- task.cancel() on the still-pending pump of this direction -/
  | cancelPump (d : Dir)
  /-- the awaited writer.wait_closed() attempt finished -/
  | waitClosed
deriving DecidableEq, Repr

/-- The try/except around writer.wait_closed(): any Exception raised
while waiting for the close to complete is discarded. -/
def waitClosedSwallow : Except PyExn Unit → Option PyExn
  | .ok _ => none
  | .error _ => none

/-- The environment of one websockify call: the subprotocol header, the
outcome of asyncio.open_connection, the event traces feeding the two
pumps, the scheduling outcome at the FIRST_COMPLETED fan-in, and the
outcomes of the shutdown waits. -/
structure CoordInput where
  /-- value of the sec-websocket-protocol header (empty when absent) -/
  header : String
  /-- whether asyncio.open_connection succeeds (false models OSError) -/
  connectOk : Bool
  /-- event trace consumed by forward_ws_to_tcp -/
  wsEvents : List WsEvent
  /-- event trace consumed by forward_tcp_to_ws -/
  tcpEvents : List TcpEvent
  /-- writer.is_closing() as observed by the ws-to-tcp finally block -/
  isClosing : Bool
  /-- outcome of the websocket.close() attempt in the tcp-to-ws finally -/
  closeRes : Except PyExn Unit
  /-- which task asyncio.wait first observes as done -/
  winner : Dir
  /-- whether the other task had also completed by the fan-in -/
  bothDone : Bool
  /-- outcome of the awaited writer.wait_closed() -/
  waitClosedRes : Except PyExn Unit

/-- The result of one websockify call. -/
structure CoordRun where
  /-- the coordinator control actions, in order -/
  trace : List CoordAction
  /-- the run of forward_ws_to_tcp, when that pump was started -/
  wsRun : Option WsRun
  /-- the run of forward_tcp_to_ws, when that pump was started -/
  tcpRun : Option TcpRun
  /-- whether the coordinator reached its final statement -/
  finished : Bool
  /-- the exception, if any, that propagated out of websockify -/
  escaped : Option PyExn

/-- Embedding of websockify: negotiate the subprotocol and accept; on a
failed TCP connect close the WebSocket with code 1011 and return; on
success start both pumps, await the first completion, cancel whatever is
still pending, and await writer.wait_closed() discarding its errors. -/
def websockify (inp : CoordInput) : CoordRun :=
  let sel := select_subprotocol inp.header
  if inp.connectOk then
    { trace := [.accept sel, .startPump .wsToTcp, .startPump .tcpToWs,
                .waitFirstCompleted]
        ++ (if inp.bothDone then [] else [.cancelPump (otherDir inp.winner)])
        ++ [.waitClosed],
      wsRun := some (forward_ws_to_tcp inp.wsEvents inp.isClosing),
      tcpRun := some (forward_tcp_to_ws inp.tcpEvents inp.closeRes),
      finished := true,
      escaped := waitClosedSwallow inp.waitClosedRes }
  else
    { trace := [.accept sel, .closeWs 1011],
      wsRun := none,
      tcpRun := none,
      finished := true,
      escaped := none }

/-! ## Helper lemmas -/

/-- On a clean run the try-loop of the WS pump performs receive, write and
drain for every non-empty payload, then the final receive raises
WebSocketDisconnect. -/
theorem wsTryLoop_clean (msgs : List Bytes) (h : ∀ d ∈ msgs, d ≠ []) :
    wsTryLoop (msgs.map (fun d => WsEvent.msg d true) ++ [WsEvent.disconnect]) =
      (msgs.flatMap (fun d => [WsAction.recv, WsAction.write d, WsAction.drain])
          ++ [WsAction.recv],
        LoopExit.raised PyExn.wsDisconnect) := by
  induction msgs with
  | nil => simp [wsTryLoop]
  | cons d rest ih =>
    have hd : ¬d = [] := h d (List.mem_cons_self d rest)
    have hrest : ∀ x ∈ rest, x ≠ [] := fun x hx => h x (List.mem_cons_of_mem d hx)
    simp [wsTryLoop, hd, ih hrest]

/-- writtenOf distributes over trace concatenation. -/
theorem writtenOf_append (l1 l2 : List WsAction) :
    writtenOf (l1 ++ l2) = writtenOf l1 ++ writtenOf l2 := by
  induction l1 with
  | nil => rfl
  | cons a rest ih => cases a <;> simp [writtenOf, ih]

/-- The payloads written by a clean-run trace are exactly the payloads of
its messages. -/
theorem writtenOf_flatMap (msgs : List Bytes) (t : List WsAction) :
    writtenOf (msgs.flatMap (fun d => [WsAction.recv, WsAction.write d, WsAction.drain]) ++ t)
      = msgs ++ writtenOf t := by
  induction msgs with
  | nil => simp [writtenOf]
  | cons d rest ih =>
    rw [List.flatMap_cons, List.append_assoc]
    simp only [List.cons_append, List.nil_append, writtenOf]
    simpa using ih

/-- The try-loop of the WS pump never closes the writer itself. -/
theorem wsTryLoop_no_close (es : List WsEvent) :
    WsAction.closeWriter ∉ (wsTryLoop es).1 := by
  induction es with
  | nil => simp [wsTryLoop]
  | cons e rest ih =>
    cases e with
    | msg data drainOk =>
      by_cases hd : data = [] <;> cases drainOk <;> simp [wsTryLoop, hd, ih]
    | disconnect => simp [wsTryLoop]
    | incompleteRead => simp [wsTryLoop]
    | recvFault => simp [wsTryLoop]
    | cancel => simp [wsTryLoop]

/-- A cancellation can only come out of the WS try-loop when a cancel
event was delivered. -/
theorem wsTryLoop_cancel_of (es : List WsEvent)
    (hE : (wsTryLoop es).2 = LoopExit.raised PyExn.cancelled) :
    WsEvent.cancel ∈ es := by
  induction es with
  | nil => simp [wsTryLoop] at hE
  | cons e rest ih =>
    cases e with
    | msg data drainOk =>
      by_cases hd : data = []
      · simp [wsTryLoop, hd] at hE
      · cases drainOk with
        | false => simp [wsTryLoop, hd] at hE
        | true =>
          simp only [wsTryLoop, if_neg hd, if_pos rfl] at hE
          exact List.mem_cons_of_mem _ (ih hE)
    | disconnect => simp [wsTryLoop] at hE
    | incompleteRead => simp [wsTryLoop] at hE
    | recvFault => simp [wsTryLoop] at hE
    | cancel => exact List.mem_cons_self _ _

/-- The WS pump can only let a cancellation escape, never an error. -/
theorem ws_escaped_cases (es : List WsEvent) (c : Bool) :
    (forward_ws_to_tcp es c).escaped = none ∨
      (forward_ws_to_tcp es c).escaped = some PyExn.cancelled := by
  cases hE : (wsTryLoop es).2 with
  | brk => left; simp [forward_ws_to_tcp, hE]
  | blocked => left; simp [forward_ws_to_tcp, hE]
  | raised e => cases e <;> simp [forward_ws_to_tcp, hE, wsHandle]

/-- Without a cancel event, nothing escapes the WS pump. -/
theorem ws_no_cancel_escaped (es : List WsEvent) (c : Bool)
    (h : WsEvent.cancel ∉ es) : (forward_ws_to_tcp es c).escaped = none := by
  cases hE : (wsTryLoop es).2 with
  | brk => simp [forward_ws_to_tcp, hE]
  | blocked => simp [forward_ws_to_tcp, hE]
  | raised e =>
    cases e with
    | wsDisconnect => simp [forward_ws_to_tcp, hE, wsHandle]
    | incompleteRead => simp [forward_ws_to_tcp, hE, wsHandle]
    | otherError => simp [forward_ws_to_tcp, hE, wsHandle]
    | cancelled => exact absurd (wsTryLoop_cancel_of es hE) h

/-- On a clean run the try-loop of the TCP pump performs a read and a send
for every non-empty chunk, then the empty read breaks out of the loop. -/
theorem tcpTryLoop_clean (chunks : List Bytes) (h : ∀ c ∈ chunks, c ≠ []) :
    tcpTryLoop (chunks.map (fun c => TcpEvent.chunk c true) ++ [TcpEvent.chunk [] true]) =
      (chunks.flatMap (fun c => [TcpAction.read READ_SIZE c, TcpAction.send c])
          ++ [TcpAction.read READ_SIZE []],
        LoopExit.brk) := by
  induction chunks with
  | nil => simp [tcpTryLoop]
  | cons c rest ih =>
    have hc : ¬c = [] := h c (List.mem_cons_self c rest)
    have hrest : ∀ x ∈ rest, x ≠ [] := fun x hx => h x (List.mem_cons_of_mem c hx)
    simp [tcpTryLoop, hc, ih hrest]

/-- sentOf distributes over trace concatenation. -/
theorem sentOf_append (l1 l2 : List TcpAction) :
    sentOf (l1 ++ l2) = sentOf l1 ++ sentOf l2 := by
  induction l1 with
  | nil => rfl
  | cons a rest ih => cases a <;> simp [sentOf, ih]

/-- The chunks sent by a clean-run trace are exactly the chunks read. -/
theorem sentOf_flatMap (chunks : List Bytes) (t : List TcpAction) :
    sentOf (chunks.flatMap (fun c => [TcpAction.read READ_SIZE c, TcpAction.send c]) ++ t)
      = chunks ++ sentOf t := by
  induction chunks with
  | nil => simp [sentOf]
  | cons c rest ih =>
    rw [List.flatMap_cons, List.append_assoc]
    simp only [List.cons_append, List.nil_append, sentOf]
    simpa using ih

/-- Every chunk the try-loop of the TCP pump sends is non-empty: the empty
read breaks out of the loop before any send. -/
theorem tcpTryLoop_sent_ne_nil (es : List TcpEvent) :
    ∀ m ∈ sentOf (tcpTryLoop es).1, m ≠ [] := by
  induction es with
  | nil => simp [tcpTryLoop, sentOf]
  | cons e rest ih =>
    cases e with
    | chunk data sendOk =>
      by_cases hd : data = []
      · simp [tcpTryLoop, hd, sentOf]
      · cases sendOk with
        | false => simp [tcpTryLoop, hd, sentOf]
        | true =>
          simp only [tcpTryLoop, if_neg hd, if_pos rfl, sentOf]
          intro m hm
          rcases List.mem_cons.mp hm with hm | hm
          · subst hm; exact hd
          · exact ih m hm
    | readFault => simp [tcpTryLoop, sentOf]
    | cancel => simp [tcpTryLoop, sentOf]

/-- The try-loop of the TCP pump never closes the WebSocket itself. -/
theorem tcpTryLoop_no_close (es : List TcpEvent) :
    TcpAction.closeWs ∉ (tcpTryLoop es).1 := by
  induction es with
  | nil => simp [tcpTryLoop]
  | cons e rest ih =>
    cases e with
    | chunk data sendOk =>
      by_cases hd : data = [] <;> cases sendOk <;> simp [tcpTryLoop, hd, ih]
    | readFault => simp [tcpTryLoop]
    | cancel => simp [tcpTryLoop]

/-- A cancellation can only come out of the TCP try-loop when a cancel
event was delivered. -/
theorem tcpTryLoop_cancel_of (es : List TcpEvent)
    (hE : (tcpTryLoop es).2 = LoopExit.raised PyExn.cancelled) :
    TcpEvent.cancel ∈ es := by
  induction es with
  | nil => simp [tcpTryLoop] at hE
  | cons e rest ih =>
    cases e with
    | chunk data sendOk =>
      by_cases hd : data = []
      · simp [tcpTryLoop, hd] at hE
      · cases sendOk with
        | false => simp [tcpTryLoop, hd] at hE
        | true =>
          simp only [tcpTryLoop, if_neg hd, if_pos rfl] at hE
          exact List.mem_cons_of_mem _ (ih hE)
    | readFault => simp [tcpTryLoop] at hE
    | cancel => exact List.mem_cons_self _ _

/-- The close attempt in the TCP-pump finally block never lets an
exception out, whatever the attempt does. -/
theorem closeSwallow_none (r : Except PyExn Unit) : closeSwallow r = none := by
  cases r <;> rfl

/-- The TCP pump can only let a cancellation escape, never an error. -/
theorem tcp_escaped_cases (es : List TcpEvent) (r : Except PyExn Unit) :
    (forward_tcp_to_ws es r).escaped = none ∨
      (forward_tcp_to_ws es r).escaped = some PyExn.cancelled := by
  cases hE : (tcpTryLoop es).2 with
  | brk => left; simp [forward_tcp_to_ws, hE, closeSwallow_none]
  | blocked => left; simp [forward_tcp_to_ws, hE]
  | raised e => cases e <;> simp [forward_tcp_to_ws, hE, tcpHandle, closeSwallow_none]

/-- Without a cancel event, nothing escapes the TCP pump. -/
theorem tcp_no_cancel_escaped (es : List TcpEvent) (r : Except PyExn Unit)
    (h : TcpEvent.cancel ∉ es) : (forward_tcp_to_ws es r).escaped = none := by
  cases hE : (tcpTryLoop es).2 with
  | brk => simp [forward_tcp_to_ws, hE, closeSwallow_none]
  | blocked => simp [forward_tcp_to_ws, hE]
  | raised e =>
    cases e with
    | wsDisconnect => simp [forward_tcp_to_ws, hE, tcpHandle, closeSwallow_none]
    | incompleteRead => simp [forward_tcp_to_ws, hE, tcpHandle, closeSwallow_none]
    | otherError => simp [forward_tcp_to_ws, hE, tcpHandle, closeSwallow_none]
    | cancelled => exact absurd (tcpTryLoop_cancel_of es hE) h

/-- The result of the TCP pump does not depend on the outcome of the
close attempt in its finally block. -/
theorem tcp_close_outcome_irrelevant (es : List TcpEvent) (r : Except PyExn Unit) :
    forward_tcp_to_ws es r = forward_tcp_to_ws es (Except.ok ()) := by
  cases hE : (tcpTryLoop es).2 with
  | brk => simp [forward_tcp_to_ws, hE, closeSwallow_none]
  | blocked => simp [forward_tcp_to_ws, hE]
  | raised e => cases e <;> simp [forward_tcp_to_ws, hE, tcpHandle, closeSwallow_none]

/-- The wait on writer.wait_closed() in websockify never lets an
exception out, whatever the wait does. -/
theorem waitClosedSwallow_none (r : Except PyExn Unit) : waitClosedSwallow r = none := by
  cases r <;> rfl

/-- The selection loop returns binary exactly when some candidate strips
to binary. -/
theorem selectLoop_some_iff (l : List String) :
    selectLoop l = some "binary" ↔ "binary" ∈ l.map pyStrip := by
  induction l with
  | nil => simp [selectLoop]
  | cons p rest ih =>
    by_cases hp : pyStrip p = "binary"
    · simp [selectLoop, hp]
    · have hp2 : ¬"binary" = pyStrip p := fun h2 => hp h2.symm
      simp [selectLoop, hp, hp2, ih]

/-- The selection loop selects binary or nothing. -/
theorem selectLoop_none_or (l : List String) :
    selectLoop l = some "binary" ∨ selectLoop l = none := by
  induction l with
  | nil => simp [selectLoop]
  | cons p rest ih =>
    by_cases hp : pyStrip p = "binary"
    · left; simp [selectLoop, hp]
    · simpa [selectLoop, hp] using ih

/-- The messages a run of the TCP pump sends are the messages its
try-loop sends: the finally block adds no send. -/
theorem sentOf_forward (es : List TcpEvent) (r : Except PyExn Unit) :
    sentOf (forward_tcp_to_ws es r).trace = sentOf (tcpTryLoop es).1 := by
  cases hE : (tcpTryLoop es).2 with
  | brk => simp [forward_tcp_to_ws, hE, sentOf_append, sentOf]
  | blocked => simp [forward_tcp_to_ws, hE]
  | raised e => simp [forward_tcp_to_ws, hE, sentOf_append, sentOf]

/-! ## The claims -/

/-- Claim C1: when the WS-to-TCP pump receives N non-empty messages and
then a clean close, it performs receive, write and drain for each message
in order — each payload written in full and drained before the next
receive — so the payloads written to the TCP stream are exactly the N
payloads in order and their concatenation is the concatenation of the
messages, byte for byte. -/
theorem ws_to_tcp_concat (msgs : List Bytes) (isClosing : Bool)
    (h : ∀ d ∈ msgs, d ≠ []) :
    forward_ws_to_tcp (msgs.map (fun d => WsEvent.msg d true) ++ [WsEvent.disconnect])
        isClosing =
      { trace := msgs.flatMap (fun d => [WsAction.recv, WsAction.write d, WsAction.drain])
            ++ [WsAction.recv] ++ (if isClosing then [] else [WsAction.closeWriter]),
        terminated := true, closedWriter := !isClosing, escaped := none } ∧
    writtenOf (forward_ws_to_tcp (msgs.map (fun d => WsEvent.msg d true)
        ++ [WsEvent.disconnect]) isClosing).trace = msgs ∧
    (writtenOf (forward_ws_to_tcp (msgs.map (fun d => WsEvent.msg d true)
        ++ [WsEvent.disconnect]) isClosing).trace).flatten = msgs.flatten := by
  have hE := wsTryLoop_clean msgs h
  have h1 : forward_ws_to_tcp (msgs.map (fun d => WsEvent.msg d true)
      ++ [WsEvent.disconnect]) isClosing =
      { trace := msgs.flatMap (fun d => [WsAction.recv, WsAction.write d, WsAction.drain])
            ++ [WsAction.recv] ++ (if isClosing then [] else [WsAction.closeWriter]),
        terminated := true, closedWriter := !isClosing, escaped := none } := by
    simp [forward_ws_to_tcp, hE, wsHandle]
  have h2 : writtenOf (forward_ws_to_tcp (msgs.map (fun d => WsEvent.msg d true)
      ++ [WsEvent.disconnect]) isClosing).trace = msgs := by
    simp only [h1, List.append_assoc]
    rw [writtenOf_flatMap]
    cases isClosing <;> simp [writtenOf]
  exact ⟨h1, h2, by rw [h2]⟩

/-- Witness for C1 at two concrete messages. -/
theorem ws_to_tcp_concat_witness :
    writtenOf (forward_ws_to_tcp
        [WsEvent.msg [1] true, WsEvent.msg [2, 3] true, WsEvent.disconnect] false).trace
      = [[1], [2, 3]] :=
  ((ws_to_tcp_concat [[1], [2, 3]] false (by decide)).2).1

/-- Claim C2: on a run of the TCP-to-WS pump, every read requests at most
READ_SIZE = 4096 bytes, a zero-length read breaks the loop and terminates
the pump normally, and every non-empty chunk is forwarded as exactly one
WebSocket message with exactly the bytes read, so the concatenation of
the sent messages equals the TCP byte stream with no loss or
duplication. -/
theorem tcp_to_ws_concat (chunks : List Bytes) (closeRes : Except PyExn Unit)
    (h : ∀ c ∈ chunks, c ≠ [] ∧ c.length ≤ READ_SIZE) :
    forward_tcp_to_ws (chunks.map (fun c => TcpEvent.chunk c true)
        ++ [TcpEvent.chunk [] true]) closeRes =
      { trace := chunks.flatMap (fun c => [TcpAction.read READ_SIZE c, TcpAction.send c])
            ++ [TcpAction.read READ_SIZE []] ++ [TcpAction.closeWs],
        terminated := true, closedWs := true, escaped := none } ∧
    sentOf (forward_tcp_to_ws (chunks.map (fun c => TcpEvent.chunk c true)
        ++ [TcpEvent.chunk [] true]) closeRes).trace = chunks ∧
    (sentOf (forward_tcp_to_ws (chunks.map (fun c => TcpEvent.chunk c true)
        ++ [TcpEvent.chunk [] true]) closeRes).trace).flatten = chunks.flatten ∧
    (∀ m ∈ sentOf (forward_tcp_to_ws (chunks.map (fun c => TcpEvent.chunk c true)
        ++ [TcpEvent.chunk [] true]) closeRes).trace,
      m ≠ [] ∧ m.length ≤ READ_SIZE) := by
  have hE := tcpTryLoop_clean chunks (fun c hc => (h c hc).1)
  have h1 : forward_tcp_to_ws (chunks.map (fun c => TcpEvent.chunk c true)
      ++ [TcpEvent.chunk [] true]) closeRes =
      { trace := chunks.flatMap (fun c => [TcpAction.read READ_SIZE c, TcpAction.send c])
            ++ [TcpAction.read READ_SIZE []] ++ [TcpAction.closeWs],
        terminated := true, closedWs := true, escaped := none } := by
    simp [forward_tcp_to_ws, hE, closeSwallow_none]
  have h2 : sentOf (forward_tcp_to_ws (chunks.map (fun c => TcpEvent.chunk c true)
      ++ [TcpEvent.chunk [] true]) closeRes).trace = chunks := by
    simp only [h1, List.append_assoc]
    rw [sentOf_flatMap]
    simp [sentOf]
  refine ⟨h1, h2, by rw [h2], ?_⟩
  rw [h2]
  exact h

/-- Witness for C2 at two concrete chunks. -/
theorem tcp_to_ws_concat_witness :
    sentOf (forward_tcp_to_ws
        [TcpEvent.chunk [7] true, TcpEvent.chunk [8, 9] true, TcpEvent.chunk [] true]
        (Except.ok ())).trace = [[7], [8, 9]] :=
  ((tcp_to_ws_concat [[7], [8, 9]] (Except.ok ()) (by decide)).2).1

/-- Claim C8: a zero-length WebSocket message makes the WS-to-TCP pump
terminate normally, with no bytes written — not even the empty payload —
and with exactly the observable result of a clean peer close. -/
theorem empty_message_clean_close (drainOk : Bool) (rest : List WsEvent)
    (isClosing : Bool) :
    forward_ws_to_tcp (WsEvent.msg [] drainOk :: rest) isClosing =
      { trace := [WsAction.recv] ++ (if isClosing then [] else [WsAction.closeWriter]),
        terminated := true, closedWriter := !isClosing, escaped := none } ∧
    writtenOf (forward_ws_to_tcp (WsEvent.msg [] drainOk :: rest) isClosing).trace = [] ∧
    forward_ws_to_tcp (WsEvent.msg [] drainOk :: rest) isClosing =
      forward_ws_to_tcp [WsEvent.disconnect] isClosing := by
  have h1 : forward_ws_to_tcp (WsEvent.msg [] drainOk :: rest) isClosing =
      { trace := [WsAction.recv] ++ (if isClosing then [] else [WsAction.closeWriter]),
        terminated := true, closedWriter := !isClosing, escaped := none } := by
    simp [forward_ws_to_tcp, wsTryLoop]
  refine ⟨h1, ?_, ?_⟩
  · simp only [h1]
    cases isClosing <;> simp [writtenOf]
  · rw [h1]
    simp [forward_ws_to_tcp, wsTryLoop, wsHandle]

/-- Claim C10: the TCP-to-WS pump never sends a zero-length WebSocket
message, on any event trace: a zero-length read ends the loop before any
send. -/
theorem no_empty_ws_message_sent (events : List TcpEvent)
    (closeRes : Except PyExn Unit) :
    ∀ m ∈ sentOf (forward_tcp_to_ws events closeRes).trace, m ≠ [] := by
  intro m hm
  rw [sentOf_forward] at hm
  exact tcpTryLoop_sent_ne_nil events m hm

/-- Witness for C10 at a concrete trace. -/
theorem no_empty_ws_message_sent_witness :
    [5] ∈ sentOf (forward_tcp_to_ws
        [TcpEvent.chunk [5] true, TcpEvent.chunk [] true] (Except.ok ())).trace ∧
    ([5] : Bytes) ≠ [] := by
  constructor
  · decide
  · exact no_empty_ws_message_sent [TcpEvent.chunk [5] true, TcpEvent.chunk [] true]
      (Except.ok ()) [5] (by decide)

/-- Claim C6: no error arising inside either pump (receive, send, read,
write or drain failure) propagates across the pump boundary: on every
event trace the only exception that can escape a pump is the cancellation
request itself, and when no cancellation is delivered nothing escapes at
all — the coordinator only ever observes that the pump finished. -/
theorem pump_errors_swallowed (wsEvents : List WsEvent) (tcpEvents : List TcpEvent)
    (isClosing : Bool) (closeRes : Except PyExn Unit) :
    ((forward_ws_to_tcp wsEvents isClosing).escaped = none ∨
      (forward_ws_to_tcp wsEvents isClosing).escaped = some PyExn.cancelled) ∧
    ((forward_tcp_to_ws tcpEvents closeRes).escaped = none ∨
      (forward_tcp_to_ws tcpEvents closeRes).escaped = some PyExn.cancelled) ∧
    (WsEvent.cancel ∉ wsEvents → (forward_ws_to_tcp wsEvents isClosing).escaped = none) ∧
    (TcpEvent.cancel ∉ tcpEvents → (forward_tcp_to_ws tcpEvents closeRes).escaped = none) :=
  ⟨ws_escaped_cases wsEvents isClosing, tcp_escaped_cases tcpEvents closeRes,
    ws_no_cancel_escaped wsEvents isClosing, tcp_no_cancel_escaped tcpEvents closeRes⟩

/-- Claim C7: on every terminating exit path of the WS-to-TCP pump —
clean close, empty message, disconnect or error — the finally block
half-closes the TCP connection by closing its write handle exactly when
the writer is not already in the process of closing. -/
theorem ws_pump_half_close (events : List WsEvent) (isClosing : Bool)
    (h : (forward_ws_to_tcp events isClosing).terminated = true) :
    (forward_ws_to_tcp events isClosing).closedWriter = !isClosing ∧
    (WsAction.closeWriter ∈ (forward_ws_to_tcp events isClosing).trace ↔
      isClosing = false) := by
  cases hE : (wsTryLoop events).2 with
  | blocked => simp [forward_ws_to_tcp, hE] at h
  | brk =>
    constructor
    · simp [forward_ws_to_tcp, hE]
    · cases isClosing <;> simp [forward_ws_to_tcp, hE, wsTryLoop_no_close events]
  | raised e =>
    constructor
    · simp [forward_ws_to_tcp, hE]
    · cases isClosing <;> simp [forward_ws_to_tcp, hE, wsTryLoop_no_close events]

/-- Witness for C7 at a concrete terminating run. -/
theorem ws_pump_half_close_witness :
    (forward_ws_to_tcp [WsEvent.disconnect] false).closedWriter = !false ∧
    (WsAction.closeWriter ∈ (forward_ws_to_tcp [WsEvent.disconnect] false).trace ↔
      false = false) :=
  ws_pump_half_close [WsEvent.disconnect] false (by decide)

/-- Claim C9: on every terminating exit path of the TCP-to-WS pump — EOF,
read or send error, or cancellation — the finally block attempts to close
the WebSocket, and an error raised by that close attempt is swallowed:
the result of the pump does not depend on the outcome of the close
attempt. -/
theorem tcp_pump_always_closes_ws (events : List TcpEvent)
    (closeRes : Except PyExn Unit) :
    ((forward_tcp_to_ws events closeRes).terminated = true →
      (forward_tcp_to_ws events closeRes).closedWs = true ∧
      TcpAction.closeWs ∈ (forward_tcp_to_ws events closeRes).trace) ∧
    (TcpAction.closeWs ∈ (forward_tcp_to_ws events closeRes).trace ↔
      (forward_tcp_to_ws events closeRes).terminated = true) ∧
    forward_tcp_to_ws events closeRes = forward_tcp_to_ws events (Except.ok ()) := by
  refine ⟨?_, ?_, tcp_close_outcome_irrelevant events closeRes⟩ <;>
    cases hE : (tcpTryLoop events).2 with
  | brk => simp [forward_tcp_to_ws, hE]
  | raised e => simp [forward_tcp_to_ws, hE]
  | blocked =>
    first
    | intro ht
      simp [forward_tcp_to_ws, hE] at ht
    | simp [forward_tcp_to_ws, hE, tcpTryLoop_no_close events]

/-- Claim C3: when the TCP connect attempt fails, websockify closes the
WebSocket with close code 1011 and returns without starting either pump,
so zero bytes are forwarded in either direction; and 1011 is the only
close code the coordinator ever issues, on any input. -/
theorem connect_fail_close_1011 :
    (∀ inp : CoordInput, inp.connectOk = false →
      websockify inp =
        { trace := [CoordAction.accept (select_subprotocol inp.header),
                    CoordAction.closeWs 1011],
          wsRun := none, tcpRun := none, finished := true, escaped := none }) ∧
    (∀ inp : CoordInput, ∀ c : Nat,
      CoordAction.closeWs c ∈ (websockify inp).trace → c = 1011) := by
  constructor
  · intro inp h
    simp [websockify, h]
  · intro inp c hc
    cases h : inp.connectOk with
    | true => cases hb : inp.bothDone <;> simp [websockify, h, hb] at hc
    | false =>
      simp [websockify, h] at hc
      exact hc

/-- Claim C4: after a successful TCP connect, websockify starts both
pumps (WS-to-TCP first, TCP-to-WS second), suspends at the
FIRST_COMPLETED wait until one of them finishes for any reason, cancels a
still-pending pump without ever awaiting its natural completion — the
only action after the cancellation is the wait on the TCP close — then
waits for writer.wait_closed() discarding its errors, so the coordinator
reaches its terminal state, with nothing escaping, on every input. -/
theorem coordinator_first_completion :
    (∀ inp : CoordInput, inp.connectOk = true →
      websockify inp =
        { trace := [CoordAction.accept (select_subprotocol inp.header),
                    CoordAction.startPump Dir.wsToTcp,
                    CoordAction.startPump Dir.tcpToWs,
                    CoordAction.waitFirstCompleted]
            ++ (if inp.bothDone then []
                else [CoordAction.cancelPump (otherDir inp.winner)])
            ++ [CoordAction.waitClosed],
          wsRun := some (forward_ws_to_tcp inp.wsEvents inp.isClosing),
          tcpRun := some (forward_tcp_to_ws inp.tcpEvents inp.closeRes),
          finished := true, escaped := none } ∧
      websockify inp = websockify { inp with waitClosedRes := Except.ok () }) ∧
    (∀ inp : CoordInput,
      (websockify inp).finished = true ∧ (websockify inp).escaped = none) := by
  constructor
  · intro inp h
    constructor
    · simp [websockify, h, waitClosedSwallow_none]
    · simp [websockify, h, waitClosedSwallow_none]
  · intro inp
    cases h : inp.connectOk <;> simp [websockify, h, waitClosedSwallow_none]

/-- Claim C5: subprotocol negotiation splits the Sec-WebSocket-Protocol
header value on commas, strips whitespace around each candidate and
selects binary exactly when some candidate strips to binary, selecting
nothing otherwise; in particular the header json-comma-binary selects
binary, the header json selects nothing, the empty header selects
nothing, and the selection is what websockify passes to accept as the
first thing it does. -/
theorem subprotocol_negotiation :
    (∀ hd : String, select_subprotocol hd = some "binary" ↔
      "binary" ∈ (pySplitComma hd).map pyStrip) ∧
    (∀ hd : String,
      select_subprotocol hd = some "binary" ∨ select_subprotocol hd = none) ∧
    select_subprotocol "json, binary" = some "binary" ∧
    select_subprotocol "json" = none ∧
    select_subprotocol "" = none ∧
    (∀ inp : CoordInput, (websockify inp).trace.head? =
      some (CoordAction.accept (select_subprotocol inp.header))) := by
  refine ⟨fun hd => selectLoop_some_iff (pySplitComma hd),
    fun hd => selectLoop_none_or (pySplitComma hd),
    by decide, by decide, by decide, ?_⟩
  intro inp
  cases h : inp.connectOk <;> simp [websockify, h]

end Websockify
